import Mathlib

/-!
Shallow embedding of the thermostat controller repository
(controller.py and oath2_honeywell.py): naive datetime arithmetic, the
quarter-hour rounding and hold-window helpers, the setpoint update
routine, temperature unit backfill, the orchestrator main routine with
its retry-after-refresh policy, and the OAuth redirect handler.
Dictionaries become structures, in-place mutation becomes explicit
state passing, exceptions become Except, and the ambient clock and the
network are an explicit environment of call results.
-/

/-- A naive datetime: a day index plus time-of-day fields, mirroring the
fields of the Python datetime values used by the controller. -/
structure DateTime where
  day : Nat
  hour : Nat
  minute : Nat
  second : Nat
  usec : Nat
deriving DecidableEq, Repr

/-- Field bounds of a well-formed datetime. -/
def DateTime.Valid (dt : DateTime) : Prop :=
  dt.hour < 24 ∧ dt.minute < 60 ∧ dt.second < 60 ∧ dt.usec < 1000000

instance (dt : DateTime) : Decidable dt.Valid :=
  inferInstanceAs (Decidable (_ ∧ _ ∧ _ ∧ _))

/-- Microseconds since day 0; chronological order on naive datetimes. -/
def toUsec (dt : DateTime) : Nat :=
  dt.day * 86400000000 + dt.hour * 3600000000 + dt.minute * 60000000 +
    dt.second * 1000000 + dt.usec

/-- Rebuild a datetime from a count of microseconds since day 0. -/
def ofUsec (n : Nat) : DateTime :=
  ⟨n / 86400000000, n % 86400000000 / 3600000000, n % 3600000000 / 60000000,
    n % 60000000 / 1000000, n % 1000000⟩

/-- Python dt + datetime.timedelta(minutes=m). -/
def addMinutes (dt : DateTime) (m : Nat) : DateTime :=
  ofUsec (toUsec dt + m * 60000000)

/-- Python dt + datetime.timedelta(days=d). -/
def addDays (dt : DateTime) (d : Nat) : DateTime :=
  { dt with day := dt.day + d }

/-- A time of day, as parsed by strptime with format HH:MM:SS. -/
structure Time where
  hour : Nat
  minute : Nat
  second : Nat
deriving DecidableEq, Repr

/-- Field bounds of a well-formed time of day. -/
def Time.Valid (t : Time) : Prop :=
  t.hour < 24 ∧ t.minute < 60 ∧ t.second < 60

instance (t : Time) : Decidable t.Valid :=
  inferInstanceAs (Decidable (_ ∧ _ ∧ _))

/-- Python datetime.datetime.combine(now.date(), given_time). -/
def combine (day : Nat) (t : Time) : DateTime :=
  ⟨day, t.hour, t.minute, t.second, 0⟩

/-- controller.is_x_minutes_in_future, with the clock passed explicitly:
whether time_str, placed on the date of now, is strictly later than
now plus the given number of minutes. -/
def is_x_minutes_in_future (time_str : Time) (minutes_in_future : Nat)
    (now : DateTime) : Bool :=
  let given_datetime := combine now.day time_str
  decide (toUsec (addMinutes now minutes_in_future) < toUsec given_datetime)

/-- controller.round_up_to_quarter_hour. -/
def round_up_to_quarter_hour (dt : DateTime) : DateTime :=
  if dt.second = 0 ∧ dt.usec = 0 ∧ dt.minute % 15 = 0 then dt
  else
    let next_minute := ((dt.minute / 15) + 1) * 15 % 60
    if next_minute = 0 then
      let next_hour := dt.hour + 1
      if next_hour = 24 then
        let dt2 := addDays dt 1
        { dt2 with hour := 0, minute := 0, second := 0, usec := 0 }
      else { dt with hour := next_hour, minute := 0, second := 0, usec := 0 }
    else { dt with minute := next_minute, second := 0, usec := 0 }

/-- Quarter-hour alignment: minute in 0, 15, 30 or 45 with zero seconds
and microseconds. -/
def alignedQuarter (dt : DateTime) : Prop :=
  dt.second = 0 ∧ dt.usec = 0 ∧ dt.minute % 15 = 0

instance (dt : DateTime) : Decidable (alignedQuarter dt) :=
  inferInstanceAs (Decidable (_ ∧ _ ∧ _))

/-- Python round with a single argument, on an exact rational:
round half to even. -/
def pyRound (q : ℚ) : ℤ :=
  if q - q.floor < 1 / 2 then q.floor
  else if 1 / 2 < q - q.floor then q.floor + 1
  else if q.floor % 2 = 0 then q.floor else q.floor + 1

/-- One temperature setting from the config; either unit may be absent. -/
structure TempSetting where
  fahrenheit : Option ℚ
  celsius : Option ℚ
deriving DecidableEq, Repr

/-- Body of controller.add_missing_temperature_units for one setting:
backfill the missing unit from the present one; the dictionary lookup of
a missing unit raises. -/
def backfillSetting (s : TempSetting) : Except String TempSetting :=
  match (if s.fahrenheit = none then
      match s.celsius with
      | none => Except.error "KeyError"
      | some c =>
        Except.ok { s with fahrenheit := some ((pyRound (c * 9 / 5 + 32) : ℤ) : ℚ) }
    else Except.ok s : Except String TempSetting) with
  | Except.error e => Except.error e
  | Except.ok s1 =>
    if s1.celsius = none then
      match s1.fahrenheit with
      | none => Except.error "KeyError"
      | some f =>
        Except.ok
          { s1 with celsius := some (((pyRound (2 * ((f - 32) * 5 / 9)) : ℤ) : ℚ) / 2) }
    else Except.ok s1

instance {α β : Type} [DecidableEq α] [DecidableEq β] :
    DecidableEq (Except α β) := fun a b =>
  match a, b with
  | Except.ok x, Except.ok y =>
    if h : x = y then isTrue (by rw [h]) else isFalse (by simp [h])
  | Except.error x, Except.error y =>
    if h : x = y then isTrue (by rw [h]) else isFalse (by simp [h])
  | Except.ok _, Except.error _ => isFalse (by simp)
  | Except.error _, Except.ok _ => isFalse (by simp)

/-- The lowest, preferred and highest settings of one device. -/
structure Temperatures where
  lowest : TempSetting
  preferred : TempSetting
  highest : TempSetting
deriving DecidableEq, Repr

/-- Per-device configuration entry. -/
structure DevicePrefs where
  temperatures : Temperatures
deriving DecidableEq, Repr

/-- controller.add_missing_temperature_units applied to the three
settings of one device, in source order. -/
def backfillTemperatures (t : Temperatures) : Except String Temperatures := do
  let lo ← backfillSetting t.lowest
  let pref ← backfillSetting t.preferred
  let hi ← backfillSetting t.highest
  Except.ok ⟨lo, pref, hi⟩

/-- The controller configuration, after load_config. -/
structure Config where
  client_id : String
  client_secret : String
  location_prefs : List (String × List (String × DevicePrefs))
deriving DecidableEq, Repr

/-- controller.add_missing_temperature_units over the whole config. -/
def add_missing_temperature_units (cfg : Config) : Except String Config := do
  let prefs ← cfg.location_prefs.mapM (fun loc => do
    let devs ← loc.2.mapM (fun dev => do
      let t ← backfillTemperatures dev.2.temperatures
      Except.ok (dev.1, DevicePrefs.mk t))
    Except.ok (loc.1, devs))
  Except.ok { cfg with location_prefs := prefs }

/-- The changeableValues dictionary of a device; heatCoolMode is the one
key whose presence the source tests before using it. -/
structure Values where
  mode : String
  heatCoolMode : Option String
  heatSetpoint : ℚ
  coolSetpoint : ℚ
  thermostatSetpointStatus : String
  nextPeriodTime : Time
deriving DecidableEq, Repr

/-- The two setpoint keys ever passed to update_values. -/
inductive SetpointField where
  | heatSetpoint
  | coolSetpoint
deriving DecidableEq, Repr

/-- Read values[setpoint]. -/
def getSetpoint (v : Values) : SetpointField → ℚ
  | SetpointField.heatSetpoint => v.heatSetpoint
  | SetpointField.coolSetpoint => v.coolSetpoint

/-- Write values[setpoint]. -/
def setSetpoint (v : Values) : SetpointField → ℚ → Values
  | SetpointField.heatSetpoint, q => { v with heatSetpoint := q }
  | SetpointField.coolSetpoint, q => { v with coolSetpoint := q }

/-- Dictionary lookup setting[device_units]; a unit string that is not a
present key raises. -/
def getTemp (s : TempSetting) (units : String) : Except String ℚ :=
  if units = "Fahrenheit" then
    match s.fahrenheit with
    | some q => Except.ok q
    | none => Except.error "KeyError"
  else if units = "Celsius" then
    match s.celsius with
    | some q => Except.ok q
    | none => Except.error "KeyError"
  else Except.error "KeyError"

/-- strftime %H:%M:%S of a datetime. -/
def timeOfDateTime (dt : DateTime) : Time := ⟨dt.hour, dt.minute, dt.second⟩

/-- controller.py lines 44-46: update the mode field, tracking dirtiness. -/
def updateModeStep (values : Values) (mode : String) : Values × Bool :=
  if values.mode ≠ mode then ({ values with mode := mode }, true)
  else (values, false)

/-- controller.py lines 48-50: update heatCoolMode when present. -/
def updateHeatCoolStep (values : Values) (mode : String) (changed : Bool) :
    Values × Bool :=
  match values.heatCoolMode with
  | some h =>
    if h ≠ mode then ({ values with heatCoolMode := some mode }, true)
    else (values, changed)
  | none => (values, changed)

/-- controller.py lines 52-54: update the chosen setpoint field. -/
def updateSetpointStep (values : Values) (setpoint : SetpointField)
    (preferred : ℚ) (changed : Bool) : Values × Bool :=
  if getSetpoint values setpoint ≠ preferred then
    (setSetpoint values setpoint preferred, true)
  else (values, changed)

/-- controller.py lines 59-66: when not already holding with at least 15
minutes left, rewrite the hold window and return the values; otherwise
return None. -/
def applyHoldStep (values : Values) (now : DateTime) : Option Values × Values :=
  if values.thermostatSetpointStatus ≠ "HoldUntil" ∨
      is_x_minutes_in_future values.nextPeriodTime 15 now = false then
    let updated := { values with
      thermostatSetpointStatus := "HoldUntil",
      nextPeriodTime :=
        timeOfDateTime (round_up_to_quarter_hour (addMinutes now 15)) }
    (some updated, updated)
  else (none, values)

/-- controller.update_values with the clock passed explicitly. The Python
function mutates its values argument in place and returns it or None;
the embedding returns the Python return value (an exception from the
preferred-temperature lookup as Except.error) together with the final
state of the mutated argument. -/
def update_values (values : Values) (temperatures : Temperatures)
    (device_units mode : String) (setpoint : SetpointField) (now : DateTime) :
    Except String (Option Values) × Values :=
  let s1 := updateModeStep values mode
  let s2 := updateHeatCoolStep s1.1 mode s1.2
  match getTemp temperatures.preferred device_units with
  | Except.error e => (Except.error e, s2.1)
  | Except.ok preferred =>
    let s3 := updateSetpointStep s2.1 setpoint preferred s2.2
    if s3.2 then
      (Except.ok (applyHoldStep s3.1 now).1, (applyHoldStep s3.1 now).2)
    else (Except.ok none, s3.1)

/-- controller.update_heat_values. -/
def update_heat_values (values : Values) (temperatures : Temperatures)
    (device_units : String) (now : DateTime) :
    Except String (Option Values) × Values :=
  update_values values temperatures device_units "Heat"
    SetpointField.heatSetpoint now

/-- controller.update_cool_values. -/
def update_cool_values (values : Values) (temperatures : Temperatures)
    (device_units : String) (now : DateTime) :
    Except String (Option Values) × Values :=
  update_values values temperatures device_units "Cool"
    SetpointField.coolSetpoint now

/-- One device entry of the vendor locations response. -/
structure DeviceData where
  deviceID : String
  indoorTemperature : ℚ
  units : String
  changeableValues : Values
deriving DecidableEq, Repr

/-- One location entry of the vendor locations response. -/
structure LocationData where
  locationID : String
  devices : List DeviceData
deriving DecidableEq, Repr

/-- The credentials loaded by main; the source never reassigns them. -/
structure Creds where
  access_token : String
  refresh_token : String
deriving DecidableEq, Repr

/-- Observable outward calls made by main, with the tokens they carry.
persistCredentials stands for oath2_honeywell.update_credentials. -/
inductive Event where
  | fetchLocations (apikey accessToken : String)
  | refreshToken (clientId clientSecret refreshTok : String)
  | persistCredentials (accessToken refreshTok : String)
  | postSettings (apikey accessToken locationId deviceId : String)
      (settings : Values)
deriving DecidableEq, Repr

/-- The external world: success of the n-th fetch, refresh and post
call, the body returned by the n-th refresh, the n-th clock reading,
and the payload of a successful fetch. -/
structure Env where
  fetchSucc : Nat → Bool
  refreshSucc : Nat → Bool
  refreshBody : Nat → Creds
  postSucc : Nat → Bool
  clock : Nat → DateTime
  locationResponse : List LocationData

/-- Call counters and the trace of events so far. -/
structure St where
  fetchN : Nat
  refreshN : Nat
  postN : Nat
  clockN : Nat
  trace : List Event
deriving DecidableEq, Repr

/-- oath2_honeywell.get_locations_and_devices as an environment call
(controller.py line 152). -/
def callFetch (cfg : Config) (creds : Creds) (env : Env) (st : St) :
    Bool × St :=
  (env.fetchSucc st.fetchN,
    { st with
      fetchN := st.fetchN + 1
      trace := st.trace ++
        [Event.fetchLocations cfg.client_id creds.access_token] })

/-- oath2_honeywell.refresh_access_token as an environment call; the
first component mirrors the (success, response.json()) pair. -/
def callRefresh (cfg : Config) (creds : Creds) (env : Env) (st : St) :
    (Bool × Creds) × St :=
  ((env.refreshSucc st.refreshN, env.refreshBody st.refreshN),
    { st with
      refreshN := st.refreshN + 1
      trace := st.trace ++
        [Event.refreshToken cfg.client_id cfg.client_secret
          creds.refresh_token] })

/-- oath2_honeywell.post_device_settings as an environment call. -/
def callPost (cfg : Config) (creds : Creds) (env : Env)
    (locId devId : String) (values : Values) (st : St) : Bool × St :=
  (env.postSucc st.postN,
    { st with
      postN := st.postN + 1
      trace := st.trace ++
        [Event.postSettings cfg.client_id creds.access_token locId devId
          values] })

/-- controller.py lines 208-224: push the settings; on failure call the
refresh once, discarding its response body exactly as the source does,
and retry the push once; None means success, 3 and 4 are the early
return codes of the two failure points. -/
def pushWithRetry (cfg : Config) (creds : Creds) (env : Env)
    (locId devId : String) (values : Values) (st : St) : Option Nat × St :=
  let r1 := callPost cfg creds env locId devId values st
  if r1.1 then (none, r1.2)
  else
    let r2 := callRefresh cfg creds env r1.2
    if r2.1.1 then
      let r3 := callPost cfg creds env locId devId values r2.2
      if r3.1 then (none, r3.2) else (some 4, r3.2)
    else (some 3, r2.2)

/-- Outcome of the device loop body: fall through, an early return with
an exit code, or a raised exception. -/
inductive DevOutcome where
  | ok
  | ret (code : Nat)
  | err (msg : String)
deriving DecidableEq, Repr

/-- controller.py lines 185-227: one configured device. The temperature
threshold lookups and update_values may raise; a produced payload is
pushed with the retry policy. -/
def processDevice (cfg : Config) (creds : Creds) (env : Env)
    (locId : String) (prefs : DevicePrefs) (device : DeviceData) (st : St) :
    DevOutcome × St :=
  let values := device.changeableValues
  let units := device.units
  match getTemp prefs.temperatures.lowest units with
  | Except.error e => (DevOutcome.err e, st)
  | Except.ok lowest =>
    if device.indoorTemperature < lowest then
      let now := env.clock st.clockN
      let st1 : St := { st with clockN := st.clockN + 1 }
      match update_heat_values values prefs.temperatures units now with
      | (Except.error e, _) => (DevOutcome.err e, st1)
      | (Except.ok none, _) => (DevOutcome.ok, st1)
      | (Except.ok (some v), _) =>
        match pushWithRetry cfg creds env locId device.deviceID v st1 with
        | (none, st2) => (DevOutcome.ok, st2)
        | (some n, st2) => (DevOutcome.ret n, st2)
    else
      match getTemp prefs.temperatures.highest units with
      | Except.error e => (DevOutcome.err e, st)
      | Except.ok highest =>
        if highest < device.indoorTemperature then
          let now := env.clock st.clockN
          let st1 : St := { st with clockN := st.clockN + 1 }
          match update_cool_values values prefs.temperatures units now with
          | (Except.error e, _) => (DevOutcome.err e, st1)
          | (Except.ok none, _) => (DevOutcome.ok, st1)
          | (Except.ok (some v), _) =>
            match pushWithRetry cfg creds env locId device.deviceID v st1 with
            | (none, st2) => (DevOutcome.ok, st2)
            | (some n, st2) => (DevOutcome.ret n, st2)
        else (DevOutcome.ok, st)

/-- controller.py lines 178-227: the inner device loop of one location,
visiting only devices present in the location preferences. -/
def processDevices (cfg : Config) (creds : Creds) (env : Env)
    (locId : String) (locPrefs : List (String × DevicePrefs)) :
    List DeviceData → St → DevOutcome × St
  | [], st => (DevOutcome.ok, st)
  | device :: rest, st =>
    match List.lookup device.deviceID locPrefs with
    | none => processDevices cfg creds env locId locPrefs rest st
    | some prefs =>
      match processDevice cfg creds env locId prefs device st with
      | (DevOutcome.ok, st1) =>
        processDevices cfg creds env locId locPrefs rest st1
      | (DevOutcome.ret n, st1) => (DevOutcome.ret n, st1)
      | (DevOutcome.err e, st1) => (DevOutcome.err e, st1)

/-- controller.py lines 171-227: the outer location loop, visiting only
locations present in the preferences. -/
def processLocations (cfg : Config) (creds : Creds) (env : Env) :
    List LocationData → St → DevOutcome × St
  | [], st => (DevOutcome.ok, st)
  | loc :: rest, st =>
    match List.lookup loc.locationID cfg.location_prefs with
    | none => processLocations cfg creds env rest st
    | some locPrefs =>
      match processDevices cfg creds env loc.locationID locPrefs
          loc.devices st with
      | (DevOutcome.ok, st1) => processLocations cfg creds env rest st1
      | (DevOutcome.ret n, st1) => (DevOutcome.ret n, st1)
      | (DevOutcome.err e, st1) => (DevOutcome.err e, st1)

/-- controller.py lines 170-238: the device loop inside try/except. An
early return keeps its code; completing the loop or catching an
exception both fall through to return 0. -/
def runLoop (cfg : Config) (creds : Creds) (env : Env) (st : St) :
    Nat × List Event :=
  match processLocations cfg creds env env.locationResponse st with
  | (DevOutcome.ret n, st1) => (n, st1.trace)
  | (DevOutcome.ok, st1) => (0, st1.trace)
  | (DevOutcome.err _, st1) => (0, st1.trace)

/-- controller.main with all input and output made explicit: the loaded
config and credentials, the network and clock as an environment; the
result is the exit code with the trace of outward calls, or the
exception raised by the unit backfill, which sits before the try block.
The source never updates creds after a refresh and never calls
update_credentials, which this embedding reproduces. -/
def run_main (cfg : Config) (creds : Creds) (env : Env) :
    Except String (Nat × List Event) :=
  match add_missing_temperature_units cfg with
  | Except.error e => Except.error e
  | Except.ok cfg1 =>
    let st0 : St := ⟨0, 0, 0, 0, []⟩
    let f1 := callFetch cfg1 creds env st0
    if f1.1 then Except.ok (runLoop cfg1 creds env f1.2)
    else
      let r1 := callRefresh cfg1 creds env f1.2
      if r1.1.1 then
        let f2 := callFetch cfg1 creds env r1.2
        if f2.1 then Except.ok (runLoop cfg1 creds env f2.2)
        else Except.ok (2, f2.2.trace)
      else Except.ok (1, r1.2.trace)

/-- Number of fetch-locations calls recorded in a trace. -/
def countFetch (tr : List Event) : Nat :=
  List.countP (fun e => match e with
    | Event.fetchLocations _ _ => true
    | _ => false) tr

/-- Number of refresh calls recorded in a trace. -/
def countRefresh (tr : List Event) : Nat :=
  List.countP (fun e => match e with
    | Event.refreshToken _ _ _ => true
    | _ => false) tr

/-- Number of settings pushes recorded in a trace. -/
def countPost (tr : List Event) : Nat :=
  List.countP (fun e => match e with
    | Event.postSettings _ _ _ _ _ => true
    | _ => false) tr

/-- The early-return codes a device loop outcome may carry. -/
def RetCodeOK : DevOutcome → Prop
  | DevOutcome.ret n => n = 3 ∨ n = 4
  | _ => True

/-- A token-endpoint response: HTTP status and parsed JSON body. -/
structure TokenResponse where
  status : Nat
  body : Creds
deriving DecidableEq, Repr

/-- Python truthiness of the optional code query parameter. -/
def codeTruthy : Option String → Bool
  | none => false
  | some s => !(s == "")

/-- oath2_honeywell.OAuthHandler.do_GET: given the parsed code and state
query parameters, the expected CSRF state, and the result of the token
exchange (performed only on a valid request), return the HTTP status
sent to the browser and the TokenSet handed to the waiting caller; none
leaves the flow pending and the listener waiting. -/
def do_get (code received_state : Option String) (auth_state : String)
    (exchange : TokenResponse) : Nat × Option Creds :=
  if codeTruthy code = true ∧ received_state = some auth_state then
    if exchange.status = 200 then (200, some exchange.body)
    else (500, none)
  else (400, none)

lemma toUsec_ofUsec (n : Nat) : toUsec (ofUsec n) = n := by
  simp only [toUsec, ofUsec]
  omega

lemma aligned_toUsec_mod (t : DateTime) (hv : t.Valid) (ha : alignedQuarter t) :
    toUsec t % 900000000 = 0 := by
  obtain ⟨h1, h2, h3, h4⟩ := hv
  obtain ⟨a1, a2, a3⟩ := ha
  simp only [toUsec]
  omega

lemma round_up_valid (dt : DateTime) (hv : dt.Valid)
    (h : ¬ (dt.second = 0 ∧ dt.usec = 0 ∧ dt.minute % 15 = 0)) :
    (round_up_to_quarter_hour dt).Valid := by
  obtain ⟨h1, h2, h3, h4⟩ := hv
  simp only [round_up_to_quarter_hour, if_neg h]
  split_ifs with hA hB <;>
    simp only [DateTime.Valid, addDays] <;> omega

lemma round_up_aligned (dt : DateTime) (hv : dt.Valid)
    (h : ¬ (dt.second = 0 ∧ dt.usec = 0 ∧ dt.minute % 15 = 0)) :
    alignedQuarter (round_up_to_quarter_hour dt) := by
  obtain ⟨h1, h2, h3, h4⟩ := hv
  have hq : dt.minute / 15 = 0 ∨ dt.minute / 15 = 1 ∨ dt.minute / 15 = 2 ∨
      dt.minute / 15 = 3 := by omega
  simp only [round_up_to_quarter_hour, if_neg h]
  rcases hq with hq | hq | hq | hq <;> rw [hq] <;> split_ifs <;>
    simp [alignedQuarter, addDays]

lemma round_up_gt (dt : DateTime) (hv : dt.Valid)
    (h : ¬ (dt.second = 0 ∧ dt.usec = 0 ∧ dt.minute % 15 = 0)) :
    toUsec dt < toUsec (round_up_to_quarter_hour dt) := by
  obtain ⟨h1, h2, h3, h4⟩ := hv
  simp only [round_up_to_quarter_hour, if_neg h]
  split_ifs with hA hB <;>
    simp only [toUsec, addDays] <;> omega

lemma round_up_close (dt : DateTime) (hv : dt.Valid)
    (h : ¬ (dt.second = 0 ∧ dt.usec = 0 ∧ dt.minute % 15 = 0)) :
    toUsec (round_up_to_quarter_hour dt) ≤ toUsec dt + 900000000 := by
  obtain ⟨h1, h2, h3, h4⟩ := hv
  simp only [round_up_to_quarter_hour, if_neg h]
  split_ifs with hA hB <;>
    simp only [toUsec, addDays] <;> omega

/-- C5: round_up_to_quarter_hour returns a quarter-aligned input
unchanged, and otherwise returns the unique smallest quarter-hour
aligned timestamp strictly greater than the input, rolling over hour
and day boundaries. -/
theorem round_up_to_quarter_hour_correct (dt : DateTime) (hv : dt.Valid) :
    (alignedQuarter dt → round_up_to_quarter_hour dt = dt) ∧
    (¬ alignedQuarter dt →
      (round_up_to_quarter_hour dt).Valid ∧
      alignedQuarter (round_up_to_quarter_hour dt) ∧
      toUsec dt < toUsec (round_up_to_quarter_hour dt) ∧
      ∀ t : DateTime, t.Valid → alignedQuarter t → toUsec dt < toUsec t →
        toUsec (round_up_to_quarter_hour dt) ≤ toUsec t) := by
  constructor
  · intro ha
    obtain ⟨a1, a2, a3⟩ := ha
    simp only [round_up_to_quarter_hour, if_pos (And.intro a1 (And.intro a2 a3))]
  · intro ha
    have hcond : ¬ (dt.second = 0 ∧ dt.usec = 0 ∧ dt.minute % 15 = 0) := ha
    refine ⟨round_up_valid dt hv hcond, round_up_aligned dt hv hcond,
      round_up_gt dt hv hcond, ?_⟩
    intro t htv hta hgt
    have hrm := aligned_toUsec_mod _ (round_up_valid dt hv hcond)
      (round_up_aligned dt hv hcond)
    have htm := aligned_toUsec_mod t htv hta
    have hg := round_up_gt dt hv hcond
    have hc := round_up_close dt hv hcond
    omega

/-- Witness for C5 at the day-rollover input 23:52:00. -/
theorem round_up_to_quarter_hour_correct_witness :
    DateTime.Valid ⟨0, 23, 52, 0, 0⟩ ∧
      ((alignedQuarter ⟨0, 23, 52, 0, 0⟩ →
          round_up_to_quarter_hour ⟨0, 23, 52, 0, 0⟩ = ⟨0, 23, 52, 0, 0⟩) ∧
        (¬ alignedQuarter ⟨0, 23, 52, 0, 0⟩ →
          (round_up_to_quarter_hour ⟨0, 23, 52, 0, 0⟩).Valid ∧
          alignedQuarter (round_up_to_quarter_hour ⟨0, 23, 52, 0, 0⟩) ∧
          toUsec ⟨0, 23, 52, 0, 0⟩ <
            toUsec (round_up_to_quarter_hour ⟨0, 23, 52, 0, 0⟩) ∧
          ∀ t : DateTime, t.Valid → alignedQuarter t →
            toUsec ⟨0, 23, 52, 0, 0⟩ < toUsec t →
            toUsec (round_up_to_quarter_hour ⟨0, 23, 52, 0, 0⟩) ≤ toUsec t)) :=
  ⟨by decide, round_up_to_quarter_hour_correct ⟨0, 23, 52, 0, 0⟩ (by decide)⟩

/-- C7 counterexample: at now = 13:45:00 the time 14:00:00 is exactly 15
minutes in the future, hence at least 15 minutes in the future, yet the
function returns false, because the source compares with a strict
greater-than. -/
theorem is_x_minutes_in_future_boundary :
    is_x_minutes_in_future ⟨14, 0, 0⟩ 15 ⟨0, 13, 45, 0, 0⟩ = false ∧
      toUsec (combine 0 ⟨14, 0, 0⟩) =
        toUsec ⟨0, 13, 45, 0, 0⟩ + 15 * 60000000 := by
  decide

lemma ratFloor_eq_intFloor (q : ℚ) : q.floor = ⌊q⌋ := rfl

lemma pyRound_nearest (q : ℚ) : |(pyRound q : ℚ) - q| ≤ 1 / 2 := by
  have h1 := Int.floor_le q
  have h2 := Int.lt_floor_add_one q
  unfold pyRound
  rw [ratFloor_eq_intFloor]
  split_ifs with hA hB hC <;> rw [abs_le] <;> push_cast <;> constructor <;>
    linarith

lemma pyRound_at_68 : pyRound (68 : ℚ) = 68 := by
  unfold pyRound
  rw [ratFloor_eq_intFloor]
  norm_num

lemma pyRound_at_40 : pyRound (40 : ℚ) = 40 := by
  unfold pyRound
  rw [ratFloor_eq_intFloor]
  norm_num

lemma pyRound_at_380_ninths : pyRound ((380 : ℚ) / 9) = 42 := by
  unfold pyRound
  rw [ratFloor_eq_intFloor]
  have h1 : ⌊(380 : ℚ) / 9⌋ = 42 := by norm_num
  rw [h1]
  norm_num

/-- C6: unit backfill is asymmetric exactly as specified: a setting with
only Celsius gets Fahrenheit = round(c*9/5+32) to the nearest integer,
a setting with only Fahrenheit gets Celsius = round(2*((f-32)*5/9))/2 to
the nearest half degree; Celsius 20 gives Fahrenheit 68, Fahrenheit 68
gives Celsius 20, Fahrenheit 70 gives Celsius 21. -/
theorem backfill_asymmetric_conversions :
    (∀ (s : TempSetting) (c : ℚ), s.celsius = some c → s.fahrenheit = none →
      backfillSetting s =
        Except.ok ⟨some ((pyRound (c * 9 / 5 + 32) : ℤ) : ℚ), some c⟩ ∧
      |((pyRound (c * 9 / 5 + 32) : ℤ) : ℚ) - (c * 9 / 5 + 32)| ≤ 1 / 2) ∧
    (∀ (s : TempSetting) (f : ℚ), s.fahrenheit = some f → s.celsius = none →
      backfillSetting s =
        Except.ok ⟨some f, some (((pyRound (2 * ((f - 32) * 5 / 9)) : ℤ) : ℚ) / 2)⟩ ∧
      |(((pyRound (2 * ((f - 32) * 5 / 9)) : ℤ) : ℚ) / 2) - (f - 32) * 5 / 9| ≤ 1 / 4 ∧
      ∃ k : ℤ, (((pyRound (2 * ((f - 32) * 5 / 9)) : ℤ) : ℚ) / 2) = (k : ℚ) / 2) ∧
    backfillSetting ⟨none, some 20⟩ = Except.ok ⟨some 68, some 20⟩ ∧
    backfillSetting ⟨some 68, none⟩ = Except.ok ⟨some 68, some 20⟩ ∧
    backfillSetting ⟨some 70, none⟩ = Except.ok ⟨some 70, some 21⟩ := by
  refine ⟨?_, ?_,
    by norm_num [backfillSetting, pyRound_at_68, pyRound_at_40,
      pyRound_at_380_ninths, Option.some_ne_none, reduceCtorEq],
    by norm_num [backfillSetting, pyRound_at_68, pyRound_at_40,
      pyRound_at_380_ninths, Option.some_ne_none, reduceCtorEq],
    by norm_num [backfillSetting, pyRound_at_68, pyRound_at_40,
      pyRound_at_380_ninths, Option.some_ne_none, reduceCtorEq]⟩
  · rintro ⟨sf, sc⟩ c hc hf
    cases hc
    cases hf
    exact ⟨rfl, pyRound_nearest (c * 9 / 5 + 32)⟩
  · rintro ⟨sf, sc⟩ f hf hc
    cases hf
    cases hc
    refine ⟨rfl, ?_, ⟨pyRound (2 * ((f - 32) * 5 / 9)), rfl⟩⟩
    have hn := pyRound_nearest (2 * ((f - 32) * 5 / 9))
    rw [abs_le] at hn ⊢
    constructor <;> [linarith [hn.1]; linarith [hn.2]]

/-- Witness for C6 applying both general directions at Celsius 20 and
Fahrenheit 70. -/
theorem backfill_asymmetric_conversions_witness :
    (backfillSetting ⟨none, some 20⟩ =
        Except.ok ⟨some ((pyRound ((20 : ℚ) * 9 / 5 + 32) : ℤ) : ℚ), some 20⟩ ∧
      |((pyRound ((20 : ℚ) * 9 / 5 + 32) : ℤ) : ℚ) - ((20 : ℚ) * 9 / 5 + 32)| ≤ 1 / 2) ∧
    (backfillSetting ⟨some 70, none⟩ =
        Except.ok ⟨some 70,
          some (((pyRound (2 * (((70 : ℚ) - 32) * 5 / 9)) : ℤ) : ℚ) / 2)⟩ ∧
      |(((pyRound (2 * (((70 : ℚ) - 32) * 5 / 9)) : ℤ) : ℚ) / 2) -
          ((70 : ℚ) - 32) * 5 / 9| ≤ 1 / 4 ∧
      ∃ k : ℤ, (((pyRound (2 * (((70 : ℚ) - 32) * 5 / 9)) : ℤ) : ℚ) / 2) = (k : ℚ) / 2) :=
  ⟨backfill_asymmetric_conversions.1 ⟨none, some 20⟩ 20 rfl rfl,
    (backfill_asymmetric_conversions.2.1 ⟨some 70, none⟩ 70 rfl rfl)⟩

/-- C7 amended: is_x_minutes_in_future returns true exactly when the
given time of day, placed on the date of now, is strictly more than the
given number of minutes after now; in particular for 14:00:00 and 15
minutes it returns true at 13:44:00 and false at 13:46:00. -/
theorem is_x_minutes_in_future_iff :
    (∀ (t : Time) (m : Nat) (now : DateTime),
      is_x_minutes_in_future t m now = true ↔
        toUsec now + m * 60000000 < toUsec (combine now.day t)) ∧
    is_x_minutes_in_future ⟨14, 0, 0⟩ 15 ⟨0, 13, 44, 0, 0⟩ = true ∧
    is_x_minutes_in_future ⟨14, 0, 0⟩ 15 ⟨0, 13, 46, 0, 0⟩ = false := by
  refine ⟨?_, by decide, by decide⟩
  intro t m now
  simp only [is_x_minutes_in_future, decide_eq_true_eq, addMinutes, toUsec_ofUsec]

lemma updateModeStep_fields (v : Values) (m : String) :
    (updateModeStep v m).1.mode = m ∧
    (updateModeStep v m).1.heatCoolMode = v.heatCoolMode ∧
    (∀ sp, getSetpoint (updateModeStep v m).1 sp = getSetpoint v sp) ∧
    (v.mode = m → updateModeStep v m = (v, false)) := by
  unfold updateModeStep
  by_cases hm : v.mode ≠ m
  · rw [if_pos hm]
    exact ⟨rfl, rfl, fun sp => by cases sp <;> rfl, fun he => absurd he hm⟩
  · rw [if_neg hm]
    push_neg at hm
    exact ⟨hm, rfl, fun sp => rfl, fun _ => rfl⟩

lemma updateHeatCoolStep_fields (v : Values) (m : String) (c : Bool) :
    (updateHeatCoolStep v m c).1.mode = v.mode ∧
    ((updateHeatCoolStep v m c).1.heatCoolMode = none ∨
      (updateHeatCoolStep v m c).1.heatCoolMode = some m) ∧
    (∀ sp, getSetpoint (updateHeatCoolStep v m c).1 sp = getSetpoint v sp) ∧
    ((v.heatCoolMode = none ∨ v.heatCoolMode = some m) →
      updateHeatCoolStep v m c = (v, c)) := by
  unfold updateHeatCoolStep
  rcases hv : v.heatCoolMode with _ | h
  · exact ⟨rfl, Or.inl hv, fun sp => rfl, fun _ => rfl⟩
  · dsimp only
    by_cases hm : h ≠ m
    · rw [if_pos hm]
      refine ⟨rfl, Or.inr rfl, fun sp => by cases sp <;> rfl, ?_⟩
      rintro (he | he)
      · exact absurd he (by simp)
      · exact absurd (Option.some_injective _ he) hm
    · rw [if_neg hm]
      push_neg at hm
      exact ⟨rfl, Or.inr (by rw [hv, hm]), fun sp => rfl, fun _ => rfl⟩

lemma updateSetpointStep_fields (v : Values) (sp : SetpointField)
    (p : ℚ) (c : Bool) :
    getSetpoint (updateSetpointStep v sp p c).1 sp = p ∧
    (updateSetpointStep v sp p c).1.mode = v.mode ∧
    (updateSetpointStep v sp p c).1.heatCoolMode = v.heatCoolMode ∧
    (getSetpoint v sp = p → updateSetpointStep v sp p c = (v, c)) := by
  unfold updateSetpointStep
  by_cases hne : getSetpoint v sp ≠ p
  · rw [if_pos hne]
    refine ⟨?_, ?_, ?_, fun he => absurd he hne⟩
    · cases sp <;> simp [getSetpoint, setSetpoint]
    · cases sp <;> simp [setSetpoint]
    · cases sp <;> simp [setSetpoint]
  · rw [if_neg hne]
    push_neg at hne
    exact ⟨hne, rfl, rfl, fun _ => rfl⟩

lemma applyHoldStep_fields (v : Values) (now : DateTime) :
    (applyHoldStep v now).2.mode = v.mode ∧
    (applyHoldStep v now).2.heatCoolMode = v.heatCoolMode ∧
    ∀ sp, getSetpoint (applyHoldStep v now).2 sp = getSetpoint v sp := by
  unfold applyHoldStep
  split_ifs <;> exact ⟨rfl, rfl, fun sp => by cases sp <;> rfl⟩

lemma update_values_post (values : Values) (temperatures : Temperatures)
    (device_units mode : String) (setpoint : SetpointField) (now : DateTime)
    (r : Option Values) (vf : Values)
    (h : update_values values temperatures device_units mode setpoint now =
      (Except.ok r, vf)) :
    vf.mode = mode ∧
    (vf.heatCoolMode = none ∨ vf.heatCoolMode = some mode) ∧
    ∃ preferred,
      getTemp temperatures.preferred device_units = Except.ok preferred ∧
      getSetpoint vf setpoint = preferred := by
  simp only [update_values] at h
  cases hg : getTemp temperatures.preferred device_units with
  | error e =>
    rw [hg] at h
    exact absurd (congrArg Prod.fst h) (by simp)
  | ok preferred =>
    rw [hg] at h
    dsimp only at h
    obtain ⟨hm1, hh1, hsp1, _⟩ := updateModeStep_fields values mode
    obtain ⟨hm2, hh2, hsp2, _⟩ :=
      updateHeatCoolStep_fields (updateModeStep values mode).1 mode
        (updateModeStep values mode).2
    obtain ⟨hsp3, hm3, hh3, _⟩ :=
      updateSetpointStep_fields
        (updateHeatCoolStep (updateModeStep values mode).1 mode
          (updateModeStep values mode).2).1 setpoint preferred
        (updateHeatCoolStep (updateModeStep values mode).1 mode
          (updateModeStep values mode).2).2
    split_ifs at h with hdirty
    · have hvf : vf =
          (applyHoldStep
            (updateSetpointStep
              (updateHeatCoolStep (updateModeStep values mode).1 mode
                (updateModeStep values mode).2).1 setpoint preferred
              (updateHeatCoolStep (updateModeStep values mode).1 mode
                (updateModeStep values mode).2).2).1 now).2 :=
        (congrArg Prod.snd h).symm
      obtain ⟨ham, hah, hasp⟩ :=
        applyHoldStep_fields
          (updateSetpointStep
            (updateHeatCoolStep (updateModeStep values mode).1 mode
              (updateModeStep values mode).2).1 setpoint preferred
            (updateHeatCoolStep (updateModeStep values mode).1 mode
              (updateModeStep values mode).2).2).1 now
      refine ⟨?_, ?_, preferred, rfl, ?_⟩
      · rw [hvf, ham, hm3, hm2, hm1]
      · rw [hvf, hah, hh3]
        exact hh2
      · rw [hvf, hasp, hsp3]
    · have hvf : vf =
          (updateSetpointStep
            (updateHeatCoolStep (updateModeStep values mode).1 mode
              (updateModeStep values mode).2).1 setpoint preferred
            (updateHeatCoolStep (updateModeStep values mode).1 mode
              (updateModeStep values mode).2).2).1 :=
        (congrArg Prod.snd h).symm
      refine ⟨?_, ?_, preferred, rfl, ?_⟩
      · rw [hvf, hm3, hm2, hm1]
      · rw [hvf, hh3]
        exact hh2
      · rw [hvf, hsp3]

/-- C8: update_values is idempotent on its outcome: immediately calling
it again on the state it left behind, with the same thresholds, unit,
mode and setpoint field, returns None because no field is dirty on the
second call. -/
theorem update_values_idempotent (values : Values)
    (temperatures : Temperatures) (device_units mode : String)
    (setpoint : SetpointField) (now now2 : DateTime) (r : Option Values)
    (vf : Values)
    (h : update_values values temperatures device_units mode setpoint now =
      (Except.ok r, vf)) :
    update_values vf temperatures device_units mode setpoint now2 =
      (Except.ok none, vf) := by
  obtain ⟨hm, hh, preferred, hg, hsp⟩ :=
    update_values_post values temperatures device_units mode setpoint now r
      vf h
  have h1 : updateModeStep vf mode = (vf, false) :=
    (updateModeStep_fields vf mode).2.2.2 hm
  have h2 : updateHeatCoolStep vf mode false = (vf, false) :=
    (updateHeatCoolStep_fields vf mode false).2.2.2 hh
  have h3 : updateSetpointStep vf setpoint preferred false = (vf, false) :=
    (updateSetpointStep_fields vf setpoint preferred false).2.2.2 hsp
  simp only [update_values, h1, h2, h3, hg]
  rfl

/-- Witness for C8: a first call from a non-holding state pushes the new
setpoint, and the theorem applied to it makes the immediate second call
return None. -/
theorem update_values_idempotent_witness :
    update_values
      (update_values ⟨"Cool", none, 60, 75, "NoHold", ⟨0, 0, 0⟩⟩
        ⟨⟨some 65, some 18⟩, ⟨some 68, some 20⟩, ⟨some 75, some 24⟩⟩
        "Fahrenheit" "Heat" SetpointField.heatSetpoint ⟨0, 6, 0, 0, 0⟩).2
      ⟨⟨some 65, some 18⟩, ⟨some 68, some 20⟩, ⟨some 75, some 24⟩⟩
      "Fahrenheit" "Heat" SetpointField.heatSetpoint ⟨0, 6, 20, 30, 0⟩ =
    (Except.ok none,
      (update_values ⟨"Cool", none, 60, 75, "NoHold", ⟨0, 0, 0⟩⟩
        ⟨⟨some 65, some 18⟩, ⟨some 68, some 20⟩, ⟨some 75, some 24⟩⟩
        "Fahrenheit" "Heat" SetpointField.heatSetpoint ⟨0, 6, 0, 0, 0⟩).2) :=
  update_values_idempotent ⟨"Cool", none, 60, 75, "NoHold", ⟨0, 0, 0⟩⟩
    ⟨⟨some 65, some 18⟩, ⟨some 68, some 20⟩, ⟨some 75, some 24⟩⟩
    "Fahrenheit" "Heat" SetpointField.heatSetpoint ⟨0, 6, 0, 0, 0⟩
    ⟨0, 6, 20, 30, 0⟩
    (some ⟨"Heat", none, 68, 75, "HoldUntil", ⟨6, 15, 0⟩⟩)
    ⟨"Heat", none, 68, 75, "HoldUntil", ⟨6, 15, 0⟩⟩ (by decide)

/-- C2: with thermostatSetpointStatus already HoldUntil and
nextPeriodTime (14:00:00) twenty minutes ahead of now (13:40:00), a
dirty update (mode Cool to Heat, heatSetpoint 60 to preferred 68)
returns None rather than a payload: the source places the return of the
mutated values inside the hold-rewrite branch, so in the preserved-hold
case the changed fields are mutated in place but nothing is returned and
the push is silently dropped. -/
theorem update_values_hold_window_drops_payload :
    update_values ⟨"Cool", none, 60, 75, "HoldUntil", ⟨14, 0, 0⟩⟩
      ⟨⟨some 65, some 18⟩, ⟨some 68, some 20⟩, ⟨some 75, some 24⟩⟩
      "Fahrenheit" "Heat" SetpointField.heatSetpoint ⟨0, 13, 40, 0, 0⟩ =
      (Except.ok none, ⟨"Heat", none, 68, 75, "HoldUntil", ⟨14, 0, 0⟩⟩) ∧
    (⟨"Heat", none, 68, 75, "HoldUntil", ⟨14, 0, 0⟩⟩ : Values) ≠
      ⟨"Cool", none, 60, 75, "HoldUntil", ⟨14, 0, 0⟩⟩ := by
  decide

/-- C4: update_values can return None while having mutated the input
values in place: from a dirty state under a preserved hold window
(nextPeriodTime 15:30:00, now 15:00:00) the returned payload is None yet
the final state of the values object differs from the input. -/
theorem update_values_mutates_despite_none :
    (update_values ⟨"Heat", some "Heat", 68, 80, "HoldUntil", ⟨15, 30, 0⟩⟩
      ⟨⟨some 65, some 18⟩, ⟨some 75, some 24⟩, ⟨some 78, some 25⟩⟩
      "Celsius" "Cool" SetpointField.coolSetpoint ⟨0, 15, 0, 0, 0⟩).1 =
      Except.ok none ∧
    (update_values ⟨"Heat", some "Heat", 68, 80, "HoldUntil", ⟨15, 30, 0⟩⟩
      ⟨⟨some 65, some 18⟩, ⟨some 75, some 24⟩, ⟨some 78, some 25⟩⟩
      "Celsius" "Cool" SetpointField.coolSetpoint ⟨0, 15, 0, 0, 0⟩).2 ≠
      ⟨"Heat", some "Heat", 68, 80, "HoldUntil", ⟨15, 30, 0⟩⟩ := by
  decide

lemma pushWithRetry_some3_iff (cfg : Config) (creds : Creds) (env : Env)
    (locId devId : String) (values : Values) (st : St) :
    (pushWithRetry cfg creds env locId devId values st).1 = some 3 ↔
      env.postSucc st.postN = false ∧ env.refreshSucc st.refreshN = false := by
  simp only [pushWithRetry, callPost, callRefresh]
  cases hp : env.postSucc st.postN <;>
    cases hr : env.refreshSucc st.refreshN <;>
    cases hp2 : env.postSucc (st.postN + 1) <;>
    simp [hp, hr, hp2]

lemma pushWithRetry_some4_iff (cfg : Config) (creds : Creds) (env : Env)
    (locId devId : String) (values : Values) (st : St) :
    (pushWithRetry cfg creds env locId devId values st).1 = some 4 ↔
      env.postSucc st.postN = false ∧ env.refreshSucc st.refreshN = true ∧
        env.postSucc (st.postN + 1) = false := by
  simp only [pushWithRetry, callPost, callRefresh]
  cases hp : env.postSucc st.postN <;>
    cases hr : env.refreshSucc st.refreshN <;>
    cases hp2 : env.postSucc (st.postN + 1) <;>
    simp [hp, hr, hp2]

lemma pushWithRetry_ret (cfg : Config) (creds : Creds) (env : Env)
    (locId devId : String) (values : Values) (st : St) (n : Nat)
    (h : (pushWithRetry cfg creds env locId devId values st).1 = some n) :
    n = 3 ∨ n = 4 := by
  simp only [pushWithRetry, callPost, callRefresh] at h
  split_ifs at h <;> simp_all

lemma pushWithRetry_counts (cfg : Config) (creds : Creds) (env : Env)
    (locId devId : String) (values : Values) (st : St) :
    countPost (pushWithRetry cfg creds env locId devId values st).2.trace ≤
      countPost st.trace + 2 ∧
    countRefresh (pushWithRetry cfg creds env locId devId values st).2.trace ≤
      countRefresh st.trace + 1 ∧
    countFetch (pushWithRetry cfg creds env locId devId values st).2.trace =
      countFetch st.trace := by
  simp only [pushWithRetry, callPost, callRefresh]
  cases hp : env.postSucc st.postN <;>
    cases hr : env.refreshSucc st.refreshN <;>
    cases hp2 : env.postSucc (st.postN + 1) <;>
    simp [hp, hr, hp2, countPost, countRefresh, countFetch,
      List.countP_append, List.countP_cons, List.countP_nil]

lemma processDevice_codes (cfg : Config) (creds : Creds) (env : Env)
    (locId : String) (prefs : DevicePrefs) (device : DeviceData) (st : St) :
    RetCodeOK (processDevice cfg creds env locId prefs device st).1 ∧
    countFetch (processDevice cfg creds env locId prefs device st).2.trace =
      countFetch st.trace := by
  unfold processDevice
  cases h1 : getTemp prefs.temperatures.lowest device.units with
  | error e => simp [h1, RetCodeOK]
  | ok lowest =>
    simp only [h1]
    by_cases h2 : device.indoorTemperature < lowest
    · rw [if_pos h2]
      cases h3 : update_heat_values device.changeableValues
          prefs.temperatures device.units (env.clock st.clockN) with
      | mk r vpost =>
        cases r with
        | error e => simp [h3, RetCodeOK]
        | ok o =>
          cases o with
          | none => simp [h3, RetCodeOK]
          | some v =>
            simp only [h3]
            cases h4 : pushWithRetry cfg creds env locId device.deviceID v
                { st with clockN := st.clockN + 1 } with
            | mk ocode st2 =>
              have hc := (pushWithRetry_counts cfg creds env locId
                device.deviceID v { st with clockN := st.clockN + 1 }).2.2
              rw [h4] at hc
              cases ocode with
              | none => exact ⟨trivial, hc⟩
              | some n =>
                exact ⟨pushWithRetry_ret cfg creds env locId
                  device.deviceID v _ n (by rw [h4]), hc⟩
    · rw [if_neg h2]
      cases h5 : getTemp prefs.temperatures.highest device.units with
      | error e => simp [h5, RetCodeOK]
      | ok highest =>
        simp only [h5]
        by_cases h6 : highest < device.indoorTemperature
        · rw [if_pos h6]
          cases h7 : update_cool_values device.changeableValues
              prefs.temperatures device.units (env.clock st.clockN) with
          | mk r vpost =>
            cases r with
            | error e => simp [h7, RetCodeOK]
            | ok o =>
              cases o with
              | none => simp [h7, RetCodeOK]
              | some v =>
                simp only [h7]
                cases h8 : pushWithRetry cfg creds env locId device.deviceID v
                    { st with clockN := st.clockN + 1 } with
                | mk ocode st2 =>
                  have hc := (pushWithRetry_counts cfg creds env locId
                    device.deviceID v { st with clockN := st.clockN + 1 }).2.2
                  rw [h8] at hc
                  cases ocode with
                  | none => exact ⟨trivial, hc⟩
                  | some n =>
                    exact ⟨pushWithRetry_ret cfg creds env locId
                      device.deviceID v _ n (by rw [h8]), hc⟩
        · rw [if_neg h6]
          exact ⟨trivial, rfl⟩

lemma processDevices_codes (cfg : Config) (creds : Creds) (env : Env)
    (locId : String) (locPrefs : List (String × DevicePrefs)) :
    ∀ (devices : List DeviceData) (st : St),
      RetCodeOK (processDevices cfg creds env locId locPrefs devices st).1 ∧
      countFetch
          (processDevices cfg creds env locId locPrefs devices st).2.trace =
        countFetch st.trace := by
  intro devices
  induction devices with
  | nil => exact fun st => ⟨trivial, rfl⟩
  | cons device rest ih =>
    intro st
    unfold processDevices
    cases hl : List.lookup device.deviceID locPrefs with
    | none =>
      try simp only [hl]
      exact ih st
    | some prefs =>
      try simp only [hl]
      obtain ⟨hr, hcnt⟩ := processDevice_codes cfg creds env locId prefs
        device st
      cases hpd : processDevice cfg creds env locId prefs device st with
      | mk o st1 =>
        rw [hpd] at hr hcnt
        try simp only [hpd]
        cases o with
        | ok =>
          obtain ⟨hr2, hcnt2⟩ := ih st1
          refine ⟨hr2, ?_⟩
          show countFetch
              (processDevices cfg creds env locId locPrefs rest st1).2.trace =
            countFetch st.trace
          rw [hcnt2]
          exact hcnt
        | ret n => exact ⟨hr, hcnt⟩
        | err e => exact ⟨trivial, hcnt⟩

lemma processLocations_codes (cfg : Config) (creds : Creds) (env : Env) :
    ∀ (locs : List LocationData) (st : St),
      RetCodeOK (processLocations cfg creds env locs st).1 ∧
      countFetch (processLocations cfg creds env locs st).2.trace =
        countFetch st.trace := by
  intro locs
  induction locs with
  | nil => exact fun st => ⟨trivial, rfl⟩
  | cons loc rest ih =>
    intro st
    unfold processLocations
    cases hl : List.lookup loc.locationID cfg.location_prefs with
    | none =>
      try simp only [hl]
      exact ih st
    | some locPrefs =>
      try simp only [hl]
      obtain ⟨hr, hcnt⟩ := processDevices_codes cfg creds env loc.locationID
        locPrefs loc.devices st
      cases hpd : processDevices cfg creds env loc.locationID locPrefs
          loc.devices st with
      | mk o st1 =>
        rw [hpd] at hr hcnt
        try simp only [hpd]
        cases o with
        | ok =>
          obtain ⟨hr2, hcnt2⟩ := ih st1
          refine ⟨hr2, ?_⟩
          show countFetch (processLocations cfg creds env rest st1).2.trace =
            countFetch st.trace
          rw [hcnt2]
          exact hcnt
        | ret n => exact ⟨hr, hcnt⟩
        | err e => exact ⟨trivial, hcnt⟩

lemma runLoop_spec (cfg : Config) (creds : Creds) (env : Env) (st : St) :
    ((runLoop cfg creds env st).1 = 0 ∨ (runLoop cfg creds env st).1 = 3 ∨
      (runLoop cfg creds env st).1 = 4) ∧
    countFetch (runLoop cfg creds env st).2 = countFetch st.trace := by
  unfold runLoop
  obtain ⟨hr, hcnt⟩ := processLocations_codes cfg creds env
    env.locationResponse st
  cases hpl : processLocations cfg creds env env.locationResponse st with
  | mk o st1 =>
    rw [hpl] at hr hcnt
    try simp only [hpl]
    cases o with
    | ok => exact ⟨Or.inl rfl, hcnt⟩
    | ret n => exact ⟨Or.inr hr, hcnt⟩
    | err e => exact ⟨Or.inl rfl, hcnt⟩

/-- C1: the retry after a successful refresh neither persists the new
TokenSet nor uses it: in a run where the first fetch fails, the refresh
succeeds returning the new pair NEW_ACCESS/NEW_REFRESH, and the retried
fetch succeeds, the trace shows both fetches carrying the stale
OLD_ACCESS token and no persistCredentials event at all, because main
discards the refresh response and never calls update_credentials. -/
theorem main_retries_with_stale_token_and_never_persists :
    run_main ⟨"cid", "csecret", []⟩ ⟨"OLD_ACCESS", "REFRESH_TOKEN"⟩
      ⟨fun n => decide (n = 1), fun _ => true,
        fun _ => ⟨"NEW_ACCESS", "NEW_REFRESH"⟩, fun _ => true,
        fun _ => ⟨0, 12, 0, 0, 0⟩, []⟩ =
      Except.ok (0,
        [Event.fetchLocations "cid" "OLD_ACCESS",
         Event.refreshToken "cid" "csecret" "REFRESH_TOKEN",
         Event.fetchLocations "cid" "OLD_ACCESS"]) ∧
    (∀ a b, Event.persistCredentials a b ∉
      ([Event.fetchLocations "cid" "OLD_ACCESS",
        Event.refreshToken "cid" "csecret" "REFRESH_TOKEN",
        Event.fetchLocations "cid" "OLD_ACCESS"] : List Event)) ∧
    "OLD_ACCESS" ≠ "NEW_ACCESS" := by
  refine ⟨by decide, ?_, by decide⟩
  intro a b
  simp

/-- C3: the orchestrator retries each failing operation at most once
after at most one refresh of the token, and its exit codes are 0 on
success, 1 when the initial fetch and the refresh both fail, 2 when the
fetch fails even after a successful refresh, 3 when a settings push and
the refresh both fail, and 4 when a push fails even after a successful
refresh; every run makes at most two fetch calls, a failed refresh ends
the run with no retry of the original operation, and every early return
from the device loop carries code 3 or 4. -/
theorem main_exit_code_policy (cfg : Config) (creds : Creds) (env : Env)
    (cfg1 : Config)
    (hb : add_missing_temperature_units cfg = Except.ok cfg1) :
    (env.fetchSucc 0 = false → env.refreshSucc 0 = false →
      run_main cfg creds env = Except.ok (1,
        [Event.fetchLocations cfg1.client_id creds.access_token,
         Event.refreshToken cfg1.client_id cfg1.client_secret
           creds.refresh_token])) ∧
    (env.fetchSucc 0 = false → env.refreshSucc 0 = true →
      env.fetchSucc 1 = false →
      run_main cfg creds env = Except.ok (2,
        [Event.fetchLocations cfg1.client_id creds.access_token,
         Event.refreshToken cfg1.client_id cfg1.client_secret
           creds.refresh_token,
         Event.fetchLocations cfg1.client_id creds.access_token])) ∧
    (env.fetchSucc 0 = true →
      (processLocations cfg1 creds env env.locationResponse
        ⟨1, 0, 0, 0,
          [Event.fetchLocations cfg1.client_id creds.access_token]⟩).1 =
        DevOutcome.ok →
      ∃ tr, run_main cfg creds env = Except.ok (0, tr)) ∧
    (∀ (locId devId : String) (values : Values) (st : St),
      ((pushWithRetry cfg1 creds env locId devId values st).1 = some 3 ↔
        env.postSucc st.postN = false ∧ env.refreshSucc st.refreshN = false) ∧
      ((pushWithRetry cfg1 creds env locId devId values st).1 = some 4 ↔
        env.postSucc st.postN = false ∧ env.refreshSucc st.refreshN = true ∧
          env.postSucc (st.postN + 1) = false) ∧
      countPost (pushWithRetry cfg1 creds env locId devId values st).2.trace ≤
        countPost st.trace + 2 ∧
      countRefresh
          (pushWithRetry cfg1 creds env locId devId values st).2.trace ≤
        countRefresh st.trace + 1) ∧
    (∀ (locs : List LocationData) (st : St) (n : Nat) (st1 : St),
      processLocations cfg1 creds env locs st = (DevOutcome.ret n, st1) →
      n = 3 ∨ n = 4) ∧
    (∀ p, run_main cfg creds env = Except.ok p →
      (p.1 = 0 ∨ p.1 = 1 ∨ p.1 = 2 ∨ p.1 = 3 ∨ p.1 = 4) ∧
      countFetch p.2 ≤ 2) := by
  refine ⟨?_, ?_, ?_, ?_, ?_, ?_⟩
  · intro hf hr
    unfold run_main
    rw [hb]
    simp [callFetch, callRefresh, hf, hr]
  · intro hf hr hf1
    unfold run_main
    rw [hb]
    simp [callFetch, callRefresh, hf, hr, hf1]
  · intro hf hloop
    cases hpl : processLocations cfg1 creds env env.locationResponse
        ⟨1, 0, 0, 0,
          [Event.fetchLocations cfg1.client_id creds.access_token]⟩ with
    | mk o st1 =>
      rw [hpl] at hloop
      have ho : o = DevOutcome.ok := hloop
      subst ho
      refine ⟨st1.trace, ?_⟩
      unfold run_main runLoop
      rw [hb]
      simp only [callFetch, hf]
      simp only [Nat.zero_add, List.nil_append]
      rw [hpl]
      simp
  · intro locId devId values st
    exact ⟨pushWithRetry_some3_iff cfg1 creds env locId devId values st,
      pushWithRetry_some4_iff cfg1 creds env locId devId values st,
      (pushWithRetry_counts cfg1 creds env locId devId values st).1,
      (pushWithRetry_counts cfg1 creds env locId devId values st).2.1⟩
  · intro locs st n st1 h
    have hr := (processLocations_codes cfg1 creds env locs st).1
    rw [h] at hr
    exact hr
  · intro p hp
    unfold run_main at hp
    rw [hb] at hp
    cases hf0 : env.fetchSucc 0 with
    | true =>
      simp [callFetch, hf0] at hp
      obtain ⟨hc, hcnt⟩ := runLoop_spec cfg1 creds env
        ⟨1, 0, 0, 0,
          [Event.fetchLocations cfg1.client_id creds.access_token]⟩
      rw [hp] at hc hcnt
      refine ⟨?_, ?_⟩
      · rcases hc with h0 | h3 | h4
        · exact Or.inl h0
        · exact Or.inr (Or.inr (Or.inr (Or.inl h3)))
        · exact Or.inr (Or.inr (Or.inr (Or.inr h4)))
      · rw [hcnt]
        simp [countFetch, List.countP_cons, List.countP_nil]
    | false =>
      cases hr0 : env.refreshSucc 0 with
      | false =>
        simp [callFetch, callRefresh, hf0, hr0] at hp
        rw [← hp]
        refine ⟨Or.inr (Or.inl rfl), ?_⟩
        simp [countFetch, List.countP_cons, List.countP_nil]
      | true =>
        cases hf1 : env.fetchSucc 1 with
        | false =>
          simp [callFetch, callRefresh, hf0, hr0, hf1] at hp
          rw [← hp]
          refine ⟨Or.inr (Or.inr (Or.inl rfl)), ?_⟩
          simp [countFetch, List.countP_cons, List.countP_nil]
        | true =>
          simp [callFetch, callRefresh, hf0, hr0, hf1] at hp
          obtain ⟨hc, hcnt⟩ := runLoop_spec cfg1 creds env
            ⟨2, 1, 0, 0,
              [Event.fetchLocations cfg1.client_id creds.access_token,
               Event.refreshToken cfg1.client_id cfg1.client_secret
                 creds.refresh_token,
               Event.fetchLocations cfg1.client_id creds.access_token]⟩
          rw [hp] at hc hcnt
          refine ⟨?_, ?_⟩
          · rcases hc with h0 | h3 | h4
            · exact Or.inl h0
            · exact Or.inr (Or.inr (Or.inr (Or.inl h3)))
            · exact Or.inr (Or.inr (Or.inr (Or.inr h4)))
          · rw [hcnt]
            simp [countFetch, List.countP_cons, List.countP_nil]

/-- Witness for C3: with the first fetch failing and the refresh
failing, the run exits with code 1 after exactly one fetch and one
refresh call and no settings push. -/
theorem main_exit_code_policy_witness :
    run_main ⟨"cid", "cs", []⟩ ⟨"AT", "RT"⟩
      ⟨fun _ => false, fun _ => false, fun _ => ⟨"NA", "NR"⟩, fun _ => false,
        fun _ => ⟨0, 0, 0, 0, 0⟩, []⟩ =
      Except.ok (1,
        [Event.fetchLocations "cid" "AT",
         Event.refreshToken "cid" "cs" "RT"]) :=
  (main_exit_code_policy ⟨"cid", "cs", []⟩ ⟨"AT", "RT"⟩
    ⟨fun _ => false, fun _ => false, fun _ => ⟨"NA", "NR"⟩, fun _ => false,
      fun _ => ⟨0, 0, 0, 0, 0⟩, []⟩ ⟨"cid", "cs", []⟩ (by decide)).1 rfl rfl

/-- C10: an exception raised inside the device loop is caught by the
bare except of main: the run still exits with code 0, the same value as
a fully successful run, and processing stops where the exception was
raised, skipping every remaining location and device. -/
theorem main_returns_zero_on_loop_exception (cfg : Config) (creds : Creds)
    (env : Env) (cfg1 : Config)
    (hb : add_missing_temperature_units cfg = Except.ok cfg1) :
    (∀ (e : String) (st1 : St), env.fetchSucc 0 = true →
      processLocations cfg1 creds env env.locationResponse
        ⟨1, 0, 0, 0,
          [Event.fetchLocations cfg1.client_id creds.access_token]⟩ =
        (DevOutcome.err e, st1) →
      run_main cfg creds env = Except.ok (0, st1.trace)) ∧
    (∀ (loc : LocationData) (rest : List LocationData) (st : St) (e : String)
        (st1 : St) (locPrefs : List (String × DevicePrefs)),
      List.lookup loc.locationID cfg1.location_prefs = some locPrefs →
      processDevices cfg1 creds env loc.locationID locPrefs loc.devices st =
        (DevOutcome.err e, st1) →
      processLocations cfg1 creds env (loc :: rest) st =
        (DevOutcome.err e, st1)) ∧
    (∀ (locId : String) (locPrefs : List (String × DevicePrefs))
        (device : DeviceData) (rest : List DeviceData) (st : St) (e : String)
        (st1 : St) (prefs : DevicePrefs),
      List.lookup device.deviceID locPrefs = some prefs →
      processDevice cfg1 creds env locId prefs device st =
        (DevOutcome.err e, st1) →
      processDevices cfg1 creds env locId locPrefs (device :: rest) st =
        (DevOutcome.err e, st1)) := by
  refine ⟨?_, ?_, ?_⟩
  · intro e st1 hf hpl
    unfold run_main runLoop
    rw [hb]
    simp only [callFetch, hf]
    simp only [Nat.zero_add, List.nil_append]
    rw [hpl]
    simp
  · intro loc rest st e st1 locPrefs hl hpd
    unfold processLocations
    try simp only [hl]
    rw [hpd]
  · intro locId locPrefs device rest st e st1 prefs hl hpd
    unfold processDevices
    try simp only [hl]
    rw [hpd]

/-- Witness for C10: a device reporting unit Kelvin makes the threshold
lookup raise inside the loop; the run still exits 0 with only the fetch
in its trace. -/
theorem main_returns_zero_on_loop_exception_witness :
    run_main
      ⟨"cid", "csecret",
        [("L1", [("D1", DevicePrefs.mk
          ⟨⟨some 65, some 18⟩, ⟨some 68, some 20⟩, ⟨some 75, some 24⟩⟩)])]⟩
      ⟨"OLD_ACCESS", "REFRESH_TOKEN"⟩
      ⟨fun _ => true, fun _ => true, fun _ => ⟨"N", "N"⟩, fun _ => true,
        fun _ => ⟨0, 12, 0, 0, 0⟩,
        [⟨"L1", [⟨"D1", 60, "Kelvin",
          ⟨"Cool", none, 60, 75, "X", ⟨0, 0, 0⟩⟩⟩]⟩]⟩ =
      Except.ok (0, [Event.fetchLocations "cid" "OLD_ACCESS"]) :=
  (main_returns_zero_on_loop_exception
    ⟨"cid", "csecret",
      [("L1", [("D1", DevicePrefs.mk
        ⟨⟨some 65, some 18⟩, ⟨some 68, some 20⟩, ⟨some 75, some 24⟩⟩)])]⟩
    ⟨"OLD_ACCESS", "REFRESH_TOKEN"⟩
    ⟨fun _ => true, fun _ => true, fun _ => ⟨"N", "N"⟩, fun _ => true,
      fun _ => ⟨0, 12, 0, 0, 0⟩,
      [⟨"L1", [⟨"D1", 60, "Kelvin",
        ⟨"Cool", none, 60, 75, "X", ⟨0, 0, 0⟩⟩⟩]⟩]⟩
    ⟨"cid", "csecret",
      [("L1", [("D1", DevicePrefs.mk
        ⟨⟨some 65, some 18⟩, ⟨some 68, some 20⟩, ⟨some 75, some 24⟩⟩)])]⟩
    (by decide)).1 "KeyError"
    ⟨1, 0, 0, 0, [Event.fetchLocations "cid" "OLD_ACCESS"]⟩ rfl (by decide)

/-- C9: the redirect handler responds 400 and does not complete the flow
whenever the code parameter is absent or the received state differs
from the expected CSRF value; on a valid request it responds 200 and
delivers the TokenSet exactly when the exchange returns HTTP 200, and
responds 500 leaving the flow pending on any other exchange status. -/
theorem do_get_csrf_and_exchange (code received_state : Option String)
    (auth_state : String) (exchange : TokenResponse) :
    ((code = none ∨ received_state ≠ some auth_state) →
      do_get code received_state auth_state exchange = (400, none)) ∧
    (codeTruthy code = true → received_state = some auth_state →
      exchange.status = 200 →
      do_get code received_state auth_state exchange =
        (200, some exchange.body)) ∧
    (codeTruthy code = true → received_state = some auth_state →
      exchange.status ≠ 200 →
      do_get code received_state auth_state exchange = (500, none)) := by
  refine ⟨?_, ?_, ?_⟩
  · rintro (hc | hs)
    · subst hc
      simp [do_get, codeTruthy]
    · simp [do_get, hs]
  · intro hc hs h200
    simp [do_get, hc, hs, h200]
  · intro hc hs hne
    simp [do_get, hc, hs, hne]

/-- Witness for C9: a state mismatch gives 400 with the flow pending, a
valid request with a 200 exchange delivers the token, and a valid
request with a failed exchange gives 500 with the flow pending. -/
theorem do_get_csrf_and_exchange_witness :
    do_get (some "authcode") (some "badstate") "goodstate"
      ⟨200, ⟨"A", "R"⟩⟩ = (400, none) ∧
    do_get (some "authcode") (some "goodstate") "goodstate"
      ⟨200, ⟨"A", "R"⟩⟩ = (200, some ⟨"A", "R"⟩) ∧
    do_get (some "authcode") (some "goodstate") "goodstate"
      ⟨503, ⟨"A", "R"⟩⟩ = (500, none) :=
  ⟨(do_get_csrf_and_exchange (some "authcode") (some "badstate") "goodstate"
      ⟨200, ⟨"A", "R"⟩⟩).1 (Or.inr (by decide)),
   (do_get_csrf_and_exchange (some "authcode") (some "goodstate") "goodstate"
      ⟨200, ⟨"A", "R"⟩⟩).2.1 (by decide) rfl rfl,
   (do_get_csrf_and_exchange (some "authcode") (some "goodstate") "goodstate"
      ⟨503, ⟨"A", "R"⟩⟩).2.2 (by decide) rfl (by decide)⟩
